import Mathlib

/-!
Shallow embedding of the retrieval / planning core of the `als-compass`
repository (files `ai_system_agentic.py` and `vector_store_enhanced.py`),
together with theorems settling the spec claims about it.

Strings are handled as lists of characters; Python substring tests,
`str.replace`, `str.lower` and whitespace splitting are reproduced as
executable functions on `List Char`.  Scores and distances are embedded
as rationals (the Python code uses floats; all arithmetic appearing in
the claims is exact decimal arithmetic, which ℚ models faithfully).
-/

namespace AlsCompass

/-! ## String helpers (Python semantics) -/

/-- Lowercase a Python string, character by character (`str.lower`). -/
def toLowerL (s : String) : List Char :=
  s.data.map Char.toLower

/-- Python substring test `pat in s` (contiguous occurrence; the empty
pattern occurs in every string). -/
def containsSub (pat : List Char) : List Char → Bool
  | [] => pat.isEmpty
  | c :: cs => pat.isPrefixOf (c :: cs) || containsSub pat cs

/-- Substring test taking the pattern as a string literal. -/
def containsStr (pat : String) (s : List Char) : Bool :=
  containsSub pat.data s

/-- Recursion core of `replaceAll`, structurally recursive on a fuel
argument so that the kernel can evaluate it; every step consumes at
least one input character, so `fuel = input length` never runs out. -/
def replaceAllGo (pat rep : List Char) : Nat → List Char → List Char
  | _, [] => []
  | 0, l => l
  | fuel + 1, c :: cs =>
    if pat ≠ [] ∧ pat.isPrefixOf (c :: cs) then
      rep ++ replaceAllGo pat rep fuel (List.drop pat.length (c :: cs))
    else
      c :: replaceAllGo pat rep fuel cs

/-- Python `s.replace(pat, rep)`: replace every non-overlapping occurrence
of `pat`, scanning left to right, without rescanning the replacement. -/
def replaceAll (pat rep : List Char) (l : List Char) : List Char :=
  replaceAllGo pat rep l.length l

/-- Python `len(s.split())`: number of maximal whitespace-free runs. -/
def wordCount (s : List Char) : Nat :=
  ((List.splitOnP (fun c => c.isWhitespace) s).filter (· ≠ [])).length

/-! ## Relevance gate (`RelevanceAnalyzer`, `ai_system_agentic.py`) -/

/-- `RelevanceAnalyzer.ALS_KEYWORDS`: category → keyword list, in source
order. -/
def ALS_KEYWORDS : List (String × List String) :=
  [ ("disease",
      ["als", "mnd", "amyotrophic", "lateral sclerosis", "motor neuron",
       "lou gehrig", "bulbar", "limb onset", "progressive muscular atrophy",
       "pals", "cals", "umn", "lmn", "fvc", "fasciculation", "atrophy",
       "neurodegenerative", "motor neurone", "kennedy disease"]),
    ("vitals",
      ["spo2", "oxygen saturation", "pulse", "heart rate", "bp", "blood pressure",
       "rr", "respiratory rate", "temperature", "fever", "pulse oximeter",
       "vital signs", "monitoring", "abg", "co2", "carbon dioxide", "etco2",
       "saturation", "vitals", "heart beat", "bpm"]),
    ("respiratory",
      ["bipap", "cpap", "ventilator", "oxygen", "concentrator", "nebulizer",
       "ambu", "ambu bag", "mask", "nasal cannula", "avaps", "ivaps",
       "ipap", "epap", "tidal volume", "respiratory", "breathing",
       "breathlessness", "dyspnea", "gasping", "choking", "trilogy",
       "dreamstation", "resmed", "philips", "stellar", "lumis"]),
    ("tracheostomy",
      ["tracheostomy", "trach", "cannula", "cuff", "stoma", "subglottic",
       "inner cannula", "decannulation", "speaking valve", "fenestrated",
       "shiley", "portex", "tracheotomy", "tt tube"]),
    ("nutrition",
      ["peg", "peg tube", "ryles tube", "ng tube", "feeding tube", "gastrostomy",
       "swallowing", "dysphagia", "aspiration", "nutrition", "weight loss",
       "feeding", "blended diet", "ensure", "protein", "calorie", "nasogastric",
       "enteral", "bolus feeding", "gravity feeding"]),
    ("secretions",
      ["suction", "suctioning", "secretion", "saliva", "sialorrhea", "drooling",
       "mucus", "phlegm", "thick secretions", "foamy saliva", "mucolytic",
       "mucinac", "inhalex", "nebulization", "cough assist", "clearance"]),
    ("equipment",
      ["wheelchair", "hospital bed", "fowler bed", "recliner", "air mattress",
       "bedsore", "pressure sore", "hoyer lift", "patient lift", "commode",
       "bedridden", "bed-bound", "immobile", "positioning", "transfer board",
       "slide sheet", "sling", "turning", "egg crate mattress"]),
    ("power",
      ["ups", "inverter", "generator", "battery backup", "power cut",
       "electricity", "power failure", "kva", "backup power", "power outage",
       "battery", "tubular battery", "sine wave"]),
    ("care",
      ["caregiver", "caregiving", "nursing", "home care", "home icu",
       "daily routine", "positioning", "turning", "range of motion", "rom",
       "physiotherapy", "exercise", "massage", "pain", "discomfort",
       "cramps", "spasticity", "stiffness", "insomnia", "sleep",
       "fatigue", "weakness", "muscle", "atrophy"]),
    ("medical",
      ["pneumonia", "infection", "uti", "constipation", "edema", "swelling",
       "fever", "tlc", "cbc", "antibiotic", "chest infection",
       "aspiration pneumonia", "dehydration", "bedsore", "pressure ulcer",
       "dvt", "blood clot", "sepsis"]),
    ("medications",
      ["riluzole", "rilutor", "radicava", "edaravone", "nuedexta",
       "baclofen", "tizanidine", "glycopyrrolate", "atropine",
       "botox", "injection", "medicine", "medication", "dosage",
       "levolin", "foracort", "budecort", "asthalin", "duolin",
       "emeset", "ondansetron", "lactulose", "cremaffin"]),
    ("communication",
      ["speech", "speaking", "dysarthria", "aac", "eye tracker", "tobii",
       "communication board", "voice banking", "text to speech",
       "eye gaze", "grid pad", "letter board"]),
    ("emotional",
      ["burnout", "stress", "depression", "anxiety", "coping", "support",
       "counseling", "mental health", "caregiver fatigue", "grief",
       "emotional", "psychological", "wellbeing", "self care"]),
    ("emergency",
      ["emergency", "crisis", "urgent", "911", "102", "108",
       "dropping", "falling", "unconscious", "not responding",
       "choking", "cannot breathe", "blue lips", "cyanosis"]),
    ("india",
      ["india", "indian", "delhi", "mumbai", "bangalore", "kolkata",
       "chennai", "hyderabad", "pune", "nimhans", "aiims", "₹", "rupees",
       "lakh", "crore", "als care india", "alscas"]) ]

/-- `RelevanceAnalyzer.RELEVANCE_THRESHOLD`. -/
def RELEVANCE_THRESHOLD : ℚ := 0.5

/-- `RelevanceAnalyzer.QUESTION_PATTERNS`. -/
def QUESTION_PATTERNS : List String :=
  ["when to", "right time", "which machine", "which bipap", "what to feed",
   "how to manage", "how to do", "when should", "is it time", "when does",
   "how much", "where to buy", "which brand", "best machine", "costs",
   "nurse charges", "attendant cost", "how to prepare", "what equipment"]

/-- `RelevanceAnalyzer.COMMON_MISSPELLINGS`, in dict insertion order. -/
def COMMON_MISSPELLINGS : List (String × String) :=
  [("trahceostomy", "tracheostomy"),
   ("tracostomy", "tracheostomy"),
   ("trachestomy", "tracheostomy"),
   ("tracheotomy", "tracheostomy"),
   ("trachea", "tracheostomy"),
   ("biaap", "bipap"),
   ("biapap", "bipap"),
   ("bi-pap", "bipap"),
   ("cpap", "bipap"),
   ("peg tube", "peg"),
   ("feeding tube", "peg"),
   ("ryle", "ryles"),
   ("ryels", "ryles"),
   ("ng tube", "ryles"),
   ("suction", "suctioning"),
   ("nebuliser", "nebulizer"),
   ("ventilater", "ventilator"),
   ("oximeter", "pulse oximeter"),
   ("oxigen", "oxygen"),
   ("constipaton", "constipation"),
   ("bedsore", "bedsores"),
   ("bed sore", "bedsores")]

/-- The misspelling-correction loop at the top of `is_als_relevant`:
fold over `COMMON_MISSPELLINGS`, replacing each misspelling that occurs
in the current corrected query and recording `"miss→corr"` markers. -/
def fixMisspellings (q : List Char) : List Char × List String :=
  COMMON_MISSPELLINGS.foldl
    (fun acc p =>
      if containsSub p.1.data acc.1 then
        (replaceAll p.1.data p.2.data acc.1, acc.2 ++ [p.1 ++ "→" ++ p.2])
      else acc)
    (q, [])

/-- The `corrected_query` local of `is_als_relevant`. -/
def corrected_query (query : String) : List Char :=
  (fixMisspellings (toLowerL query)).1

/-- The `"miss→corr"` markers appended to `matched_keywords` by the
misspelling loop of `is_als_relevant`. -/
def misspelling_markers (query : String) : List String :=
  (fixMisspellings (toLowerL query)).2

/-- The keyword matches appended to `matched_keywords` by the category
scan of `is_als_relevant`, in scan order. -/
def keyword_matches (query : String) : List String :=
  ALS_KEYWORDS.foldl
    (fun acc ckws =>
      acc ++ ckws.2.filter (fun kw => containsSub (toLowerL kw) (corrected_query query)))
    []

/-- The full `matched_keywords` list of `is_als_relevant`: misspelling
markers first, then keyword matches. -/
def matched_keywords (query : String) : List String :=
  misspelling_markers query ++ keyword_matches query

/-- Number of keyword categories with at least one match (the category
keys of `category_matches`). -/
def category_match_count (query : String) : Nat :=
  (ALS_KEYWORDS.filter
    (fun ckws => ckws.2.any (fun kw => containsSub (toLowerL kw) (corrected_query query)))).length

/-- Whether some question pattern occurs in the (uncorrected) lowercased
query — when it does, `is_als_relevant` adds the single extra key
`'question_pattern'` to `category_matches`. -/
def has_question_pattern (query : String) : Bool :=
  QUESTION_PATTERNS.any (fun p => containsSub p.data (toLowerL query))

/-- `base_score` of `is_als_relevant`: keyword matches (entries without
a `→` marker), one point each. -/
def base_count (query : String) : Nat :=
  ((matched_keywords query).filter (fun k => !containsStr "→" k.data)).length

/-- The misspelling-match count of `is_als_relevant` (entries with a
`→` marker), worth `0.8` each. -/
def misspell_count (query : String) : Nat :=
  ((matched_keywords query).filter (fun k => containsStr "→" k.data)).length

/-- The `relevance_score` computed by `is_als_relevant`:
`base + 0.8·misspellings + max 0 ((|category_matches|−1)·0.5)`.  The
question-pattern check only adds a key to the category map (its `0.5`
value is never summed — only the map size feeds the category bonus). -/
def relevance_gate_score (query : String) : ℚ :=
  (base_count query : ℚ) + (misspell_count query : ℚ) * 0.8 +
    max 0 ((((category_match_count query +
      (if has_question_pattern query then 1 else 0) : ℕ) : ℚ) - 1) * 0.5)

/-- `RelevanceAnalyzer.is_als_relevant`.  Returns
`(is_relevant, relevance_score, matched_keywords)`. -/
def is_als_relevant (query : String) : Bool × ℚ × List String :=
  (decide (relevance_gate_score query ≥ RELEVANCE_THRESHOLD),
   relevance_gate_score query, matched_keywords query)

/-! ## Query analyzer (`QueryAnalyzer`, `ai_system_agentic.py`) -/

/-- `QueryAnalyzer.__init__`: emergency keywords. -/
def emergency_keywords : List String :=
  ["emergency", "urgent", "immediate", "cannot breathe", "choking",
   "spo2 drop", "crisis", "gasping", "blue lips", "unconscious",
   "spo2", "oxygen dropping", "not breathing"]

/-- `QueryAnalyzer.__init__`: cost keywords. -/
def cost_keywords : List String :=
  ["cost", "price", "expensive", "affordable", "₹", "rupees",
   "budget", "cheap", "how much", "lakh", "thousand"]

/-- `QueryAnalyzer.__init__`: comparison keywords (note the bare string
`"or"`, matched — like every other keyword — as a substring). -/
def comparison_keywords : List String :=
  ["vs", "versus", "compare", "difference between", "which is better",
   "or", "better option", "choose between"]

/-- `QueryAnalyzer.__init__`: technical-detail keywords. -/
def technical_keywords : List String :=
  ["how to", "procedure", "steps", "protocol", "settings",
   "dosage", "frequency", "technical", "setup"]

/-- `QueryAnalyzer.__init__`: category → pattern list. -/
def category_patterns : List (String × List String) :=
  [("breathing", ["breath", "bipap", "ventilator", "oxygen", "spo2", "respiratory", "cpap"]),
   ("feeding", ["peg", "ryles", "feed", "swallow", "nutrition", "tube", "eating"]),
   ("secretions", ["saliva", "secretion", "mucus", "suction", "phlegm", "foamy", "drooling"]),
   ("tracheostomy", ["trach", "cannula", "stoma", "cuff", "tracheostomy"]),
   ("equipment", ["machine", "device", "equipment", "purchase", "buy", "rent"]),
   ("medication", ["medicine", "drug", "dose", "prescription", "medication", "tablet"]),
   ("caregiving", ["caregiver", "care", "routine", "daily", "schedule", "help"]),
   ("mobility", ["walk", "wheelchair", "movement", "physiotherapy", "exercise"]),
   ("communication", ["speak", "communication", "aac", "voice", "talk"]),
   ("emotional", ["stress", "burnout", "depression", "support", "cope", "mental"])]

/-- India-priority terms (inlined in `analyze_query`). -/
def india_terms : List String :=
  ["india", "indian", "delhi", "mumbai", "bangalore", "₹", "rupees"]

/-- `QueryPlan` dataclass. -/
structure QueryPlan where
  query_type : String
  categories : List String
  search_strategy : String
  india_priority : Bool
  emergency_mode : Bool
  needs_cost_info : Bool
  needs_technical_details : Bool
  requires_multi_source : Bool
  is_als_relevant : Bool := true
  relevance_score : ℚ := 0
  relevance_keywords : List String := []
deriving Repr, DecidableEq

/-- The emergency-flag check in `analyze_query`. -/
def emergencyFlag (query : String) : Bool :=
  emergency_keywords.any (fun kw => containsSub kw.data (toLowerL query))

/-- The comparison-flag check in `analyze_query`. -/
def comparisonFlag (query : String) : Bool :=
  comparison_keywords.any (fun kw => containsSub kw.data (toLowerL query))

/-- `QueryAnalyzer.analyze_query`. -/
def analyze_query (query : String) : QueryPlan :=
  let query_lower := toLowerL query
  let emergency_mode := emergencyFlag query
  let india_priority := india_terms.any (fun t => containsSub t.data query_lower)
  let needs_cost_info := cost_keywords.any (fun kw => containsSub kw.data query_lower)
  let is_comparison := comparisonFlag query
  let needs_technical := technical_keywords.any (fun kw => containsSub kw.data query_lower)
  let categories :=
    (category_patterns.filter
      (fun cp => cp.2.any (fun p => containsSub p.data query_lower))).map Prod.fst
  let query_type :=
    if emergency_mode then "emergency"
    else if is_comparison then "comparison"
    else if 2 < categories.length ∨ (query.data.contains '?' ∧ 15 < wordCount query.data)
      then "complex"
    else "simple"
  let search_strategy :=
    if emergency_mode then "focused"
    else if is_comparison ∨ 2 < categories.length then "multi-stage"
    else "broad"
  let requires_multi_source := is_comparison || query_type == "complex"
  { query_type := query_type
    categories := if categories.isEmpty then ["general"] else categories
    search_strategy := search_strategy
    india_priority := india_priority
    emergency_mode := emergency_mode
    needs_cost_info := needs_cost_info
    needs_technical_details := needs_technical
    requires_multi_source := requires_multi_source }

/-! ## Vector store (`EnhancedVectorStore`, `vector_store_enhanced.py`)

The ChromaDB backend and the embedding model are external.  A backend is
embedded as a function `String → String → Except String (List RawHit)`:
given the query text and a collection name it either fails (a raised
exception) or returns that collection's ranked nearest-neighbour hits;
the per-query cap `min(n_results, 20)` is applied by truncation. -/

/-- The metadata key/value bag of a stored document, restricted to the
keys `hybrid_search` reads; `none` models an absent key, read through
the Python defaults via `Option.getD`. -/
structure DocMetadata where
  source : Option String := none
  typeTag : Option String := none
  trust_score : Option ℤ := none
  india_specific : Option Bool := none
  emergency : Option Bool := none
  symptoms : Option String := none
  costs_mentioned : Option String := none
  chunk_type : Option String := none
deriving Repr, DecidableEq

/-- One raw nearest-neighbour hit: document text, metadata, distance. -/
structure RawHit where
  doc : String
  metadata : DocMetadata
  distance : ℚ
deriving Repr, DecidableEq

/-- One entry of `self.collection_config`. -/
structure CollectionConfig where
  description : String
  priority : ℤ
  trust_base : ℤ
deriving Repr, DecidableEq

/-- `EnhancedVectorStore.collection_config`. -/
def collection_config : List (String × CollectionConfig) :=
  [("community_qa_pairs",
     ⟨"Question-Answer pairs from WhatsApp", 10, 8⟩),
   ("emergency_experiences",
     ⟨"Emergency situations and responses", 10, 9⟩),
   ("community_discussions",
     ⟨"General community discussions", 7, 7⟩),
   ("medical_authoritative",
     ⟨"Tier 1 medical sources (ALS Assoc, NIH)", 9, 10⟩),
   ("medical_clinical",
     ⟨"Tier 2 clinical guidelines", 8, 9⟩),
   ("medical_community",
     ⟨"Tier 3 support organizations", 7, 8⟩)]

/-- One scored result dict built inside `hybrid_search`. -/
structure SearchResult where
  content : String
  source : String
  typeTag : String
  trust_score : ℤ
  collection : String
  distance : ℚ
  relevance_score : ℚ
  india_specific : Bool
  emergency : Bool
  symptoms : String
  costs : String
  chunk_type : String
deriving Repr, DecidableEq

/-- The relevance-score formula of `hybrid_search` (lines 202–208):
`(1/(1+distance)) · (priority/10) · (trust/10) · india_boost · emergency_boost`
with `india_boost = 1.5` iff the document is India-flagged and the plan
asks for India priority, and `emergency_boost = 2.0` iff the document is
emergency-flagged and the plan is in emergency mode. -/
def relevanceScore (distance : ℚ) (collection_priority trust_score : ℤ)
    (is_india india_priority is_emergency emergency_mode : Bool) : ℚ :=
  (1 / (1 + distance)) * ((collection_priority : ℚ) / 10) * ((trust_score : ℚ) / 10) *
    (if is_india && india_priority then 1.5 else 1) *
    (if is_emergency && emergency_mode then 2.0 else 1)

/-- Build the result dict for one hit of one collection (the loop body
of `hybrid_search`). -/
def scoreHit (collection_name : String) (cfg : CollectionConfig)
    (india_priority emergency_mode : Bool) (h : RawHit) : SearchResult :=
  let trust_score := h.metadata.trust_score.getD 5
  let is_india := h.metadata.india_specific.getD false
  let is_emergency := h.metadata.emergency.getD false
  { content := h.doc
    source := h.metadata.source.getD "Unknown"
    typeTag := h.metadata.typeTag.getD "unknown"
    trust_score := trust_score
    collection := collection_name
    distance := h.distance
    relevance_score :=
      relevanceScore h.distance cfg.priority trust_score
        is_india india_priority is_emergency emergency_mode
    india_specific := is_india
    emergency := is_emergency
    symptoms := h.metadata.symptoms.getD "[]"
    costs := h.metadata.costs_mentioned.getD "[]"
    chunk_type := h.metadata.chunk_type.getD "general" }

/-- Collection visitation order of `hybrid_search`. -/
def searchOrder (category : Option String) (emergency_mode : Bool) : List String :=
  if emergency_mode then
    ["emergency_experiences", "community_qa_pairs", "medical_authoritative"]
  else if category = some "india" then
    ["community_qa_pairs", "community_discussions", "medical_community"]
  else if category = some "medical" ∨ category = some "medication" then
    ["medical_authoritative", "medical_clinical", "community_qa_pairs"]
  else
    ["community_qa_pairs", "community_discussions", "medical_authoritative", "medical_clinical"]

/-- First pass of `_diversify_results`: walk the sorted candidates,
admitting one when its source or its collection is new, stopping at
`max_results`; returns the admitted list and both seen-sets. -/
def pass1Go (maxR : Nat) :
    List SearchResult → List SearchResult → List String → List String →
      List SearchResult × List String × List String
  | [], div, ss, sc => (div, ss, sc)
  | r :: rs, div, ss, sc =>
    if maxR ≤ div.length then (div, ss, sc)
    else if r.source ∉ ss ∨ r.collection ∉ sc then
      pass1Go maxR rs (div ++ [r]) (ss.insert r.source) (sc.insert r.collection)
    else
      pass1Go maxR rs div ss sc

/-- Second pass of `_diversify_results`: fill remaining slots with the
best remaining results (skipping ones already admitted). -/
def pass2Go (maxR : Nat) : List SearchResult → List SearchResult → List SearchResult
  | [], div => div
  | r :: rs, div =>
    if maxR ≤ div.length then div
    else if r ∈ div then pass2Go maxR rs div
    else pass2Go maxR rs (div ++ [r])

/-- `EnhancedVectorStore._diversify_results`. -/
def diversify_results (results : List SearchResult) (max_results : Nat) : List SearchResult :=
  (pass2Go max_results results (pass1Go max_results results [] [] []).1).take max_results

/-- The loop body of `hybrid_search` for one collection: skip unknown
collections (`continue`), catch a backend failure (`except`, zero
candidates), otherwise score up to `min(n_results, 20)` hits. -/
def collectResults (backend : String → String → Except String (List RawHit))
    (query : String) (india_priority emergency_mode : Bool) (n_results : Nat)
    (name : String) : List SearchResult :=
  match collection_config.lookup name with
  | none => []
  | some cfg =>
    match backend query name with
    | .error _ => []
    | .ok hits =>
      (hits.take (min n_results 20)).map (scoreHit name cfg india_priority emergency_mode)

/-- `EnhancedVectorStore.hybrid_search`: visit the collections of the
search order; a backend failure for one collection is caught and
contributes nothing; hits of surviving collections are scored; the pool
is sorted by relevance (stable, descending) and diversified. -/
def hybrid_search (backend : String → String → Except String (List RawHit))
    (query : String) (category : Option String) (india_priority : Bool)
    (emergency_mode : Bool) (n_results : Nat) : List SearchResult :=
  let all_results :=
    (searchOrder category emergency_mode).foldl
      (fun acc name =>
        acc ++ collectResults backend query india_priority emergency_mode n_results name)
      []
  let sorted := all_results.mergeSort (fun a b => b.relevance_score ≤ a.relevance_score)
  diversify_results sorted n_results

/-! ## Flat-mode deduplication (`AgenticAISystem._execute_retrieval`) -/

/-- The first-100-characters key used for deduplication
(`doc.get('content', '')[:100]`). -/
def dedupKey (d : SearchResult) : List Char :=
  d.content.data.take 100

/-- The dedup loop: keep a document iff its key was not seen before. -/
def dedupGo (seen : List (List Char)) : List SearchResult → List SearchResult
  | [] => []
  | d :: ds =>
    if dedupKey d ∈ seen then dedupGo seen ds
    else d :: dedupGo (dedupKey d :: seen) ds

/-- The duplicate-removal step of the multi-stage branch of
`_execute_retrieval` (lines 819–827). -/
def remove_duplicate_docs (docs : List SearchResult) : List SearchResult :=
  dedupGo [] docs

/-! ## Pipeline responses (`AgenticAISystem`, `ai_system_agentic.py`)

The LLM providers are external: generation is embedded as an oracle
`generate : String → String → Except String String` (system prompt, user
prompt → text or a raised exception).  `datetime.now()` is passed in as
the `now` string.  Response dicts are embedded as a structure whose
fields are the keys the pipeline writes; a key a branch does not write
keeps its default. -/

/-- One citation dict produced by `_extract_citations`. -/
structure Citation where
  source : String
  trust_score : ℤ
  collection : String
  india_specific : Bool
deriving Repr, DecidableEq

/-- The response dict returned by `process_query` and its branches. -/
structure Response where
  response : String
  citations : List Citation
  confidence : String
  out_of_scope : Bool := false
  timestamp : String := ""
  query_type : String := ""
  sources_used : Nat := 0
  emergency : Bool := false
  model_used : String := ""
  images : List String := []
  relevance_score : ℚ := 0
  error : String := ""
deriving Repr, DecidableEq

/-- The canned text of `get_out_of_scope_response` (apostrophes written
as `\x27`). -/
def out_of_scope_text : String :=
  "### I Specialize in ALS/MND Caregiving 🩺\n\nI\x27m an AI assistant specifically designed to help with **ALS (Amyotrophic Lateral Sclerosis)** and **MND (Motor Neuron Disease)** caregiving.\n\nYour question doesn\x27t seem to be related to ALS/MND topics. I\x27m not able to answer general questions outside my area of expertise.\n\n**I can help you with:**\n- 🫁 Respiratory care (BiPAP, ventilators, oxygen)\n- 🍽️ Feeding and nutrition (PEG tubes, Ryles tubes)\n- 🏥 Home ICU setup and equipment\n- 💊 Medications and symptom management\n- 👨‍⚕️ Daily caregiving routines\n- 🚨 Emergency protocols\n- 💰 Costs and resources in India\n\n**Please feel free to ask me anything about ALS/MND caregiving!**\n\n💡 *If you believe your question IS related to ALS care, try rephrasing it with specific terms like \"PALS\", \"caregiver\", \"BiPAP\", \"ventilator\", etc.*"

/-- `RelevanceAnalyzer.get_out_of_scope_response`: the designed terminal
state for out-of-domain queries — canned text, no citations, zero
sources, `out_of_scope` marker set, no images, no retrieval performed. -/
def get_out_of_scope_response (now : String) : Response :=
  { response := out_of_scope_text
    citations := []
    confidence := "not_applicable"
    out_of_scope := true
    timestamp := now
    query_type := "out_of_scope"
    sources_used := 0
    emergency := false
    model_used := "relevance_filter"
    images := [] }

/-- `WhatsAppAgent.retrieve`: hybrid search with `category='india'`,
then keep community-attributed documents, capped at `max_docs`. -/
def whatsapp_retrieve (backend : String → String → Except String (List RawHit))
    (query : String) (plan : QueryPlan) (max_docs : Nat) : List SearchResult :=
  let all_docs := hybrid_search backend query (some "india") true plan.emergency_mode (max_docs * 2)
  (all_docs.filter (fun doc =>
    let source := toLowerL doc.source
    let collection := toLowerL doc.collection
    containsStr "whatsapp" source || containsStr "community" collection ||
      (containsStr "als care" source && containsStr "india" source))).take max_docs

/-- `ALSCASAgent.retrieve`: India-flagged, non-WhatsApp documents. -/
def alscas_retrieve (backend : String → String → Except String (List RawHit))
    (query : String) (max_docs : Nat) : List SearchResult :=
  let all_docs := hybrid_search backend query none true false (max_docs * 2)
  (all_docs.filter (fun doc =>
    doc.india_specific && !containsStr "whatsapp" (toLowerL doc.source))).take max_docs

/-- `MedicalSourcesAgent.retrieve`: documents from medical collections
or medical-sounding sources. -/
def medical_retrieve (backend : String → String → Except String (List RawHit))
    (query : String) (max_docs : Nat) : List SearchResult :=
  let all_docs := hybrid_search backend query (some "medical") false false (max_docs * 2)
  (all_docs.filter (fun doc =>
    containsStr "medical" (toLowerL doc.collection) ||
      (["mayo", "nih", "mnd assoc", "als assoc", "clinic", "hospital"].any
        (fun t => containsStr t (toLowerL doc.source))))).take max_docs

/-- `format_for_prompt` of the agents, compacted to the document-driven
skeleton: a header, then per document its source label and its content
truncated to the per-agent character cap (800 / 700 / 600); the fixed
decorative prose of the source is abbreviated, as no claim concerns it. -/
def format_docs (label : String) (cap : Nat) (docs : List SearchResult) : String :=
  if docs.isEmpty then "" else
    String.intercalate "\n"
      (label ::
        docs.enum.map (fun p =>
          "[#" ++ toString (p.1 + 1) ++ "] Source: " ++ p.2.source ++ "\n" ++
            p.2.content.take cap))

/-- `AgenticAISystem._prepare_multi_agent_context`: three labeled
sections, each present even when empty (an explicit no-content line). -/
def prepare_multi_agent_context (wa al md : String) : String :=
  String.intercalate "\n"
    ["KNOWLEDGE BASE CONTEXT (Multi-Agent Retrieval)",
     if wa = "" then "\n[No WhatsApp community discussions found for this topic]" else wa,
     if al = "" then "\n[No ALSCAS website content found for this topic]" else al,
     if md = "" then "\n[No medical authority sources found for this topic]" else md,
     "RESPONSE FORMAT INSTRUCTIONS:"]

/-- `AgenticAISystem._build_multi_agent_user_prompt`. -/
def build_multi_agent_user_prompt (query context : String) : String :=
  "**USER QUESTION:**\n" ++ query ++ "\n\n**KNOWLEDGE BASE CONTEXT:**\n" ++ context ++
    "\n\n**INSTRUCTIONS:**\nPlease provide a comprehensive answer using ONLY the information from the knowledge base context above."

/-- `AgenticAISystem._extract_citations`: keep a document whose source
(or one of its first three words) occurs in the response, dropping
later duplicates of a source, capped at five. -/
def citationDedupGo (seen : List String) : List Citation → List Citation
  | [] => []
  | c :: cs =>
    if c.source ∈ seen then citationDedupGo seen cs
    else c :: citationDedupGo (c.source :: seen) cs

/-- See `citationDedupGo`; this is `_extract_citations` itself. -/
def extract_citations (resp : String) (documents : List SearchResult) : List Citation :=
  let response_lower := toLowerL resp
  let citations :=
    ((documents.take 10).filter (fun doc =>
      doc.source ≠ "" ∧
        (containsSub (toLowerL doc.source) response_lower ∨
          ((((List.splitOnP (fun c => c.isWhitespace) (toLowerL doc.source)).filter
              (· ≠ [])).take 3).any (fun w => containsSub w response_lower))))).map
      (fun doc =>
        { source := doc.source, trust_score := doc.trust_score,
          collection := doc.collection, india_specific := doc.india_specific })
  (citationDedupGo [] citations).take 5

/-- `AgenticAISystem._generate_fallback_response`. -/
def generate_fallback_response (error_msg now : String) : Response :=
  { response := "I apologize, but I\x27m experiencing technical difficulties.\n\n**For immediate ALS caregiving support:**\n- contact your primary support group \n\n\nPlease try your question again, or contact healthcare professionals directly."
    citations := []
    confidence := "system_error"
    emergency := false
    timestamp := now
    error := error_msg }

/-- The static fallback text of `_handle_emergency` (returned when the
generation call raised). -/
def emergency_fallback_text : String :=
  "🚨 EMERGENCY SITUATION DETECTED\n\n**IMMEDIATE ACTION:**\n1. Call emergency services NOW:\n   - India: 102 (Ambulance) / 108 (Emergency)\n   - USA: 911\n   - EU: 112\n\n2. Stay with the patient\n3. If breathing difficulty: Position upright at 45° angle\n4. If choking: Attempt back blows if trained\n\n**This AI cannot provide emergency medical care.**\n**Professional help is required immediately.**\n\nDo not delay seeking help."

/-- `AgenticAISystem._handle_emergency`: emergency-mode retrieval, one
generation call, a protocol fallback if generation raises. -/
def handle_emergency (backend : String → String → Except String (List RawHit))
    (generate : String → String → Except String String)
    (model_used now query : String) : Response :=
  let documents := hybrid_search backend query none true true 10
  let emergency_prompt :=
    "🚨 EMERGENCY QUERY: " ++ query ++ "\n\nRelevant emergency cases from community:\n" ++
      format_docs "EMERGENCY CASES" 600 (documents.take 5) ++
      "\n\nProvide IMMEDIATE actionable guidance."
  match generate "You are an emergency medical guidance AI. Prioritize immediate safety and action." emergency_prompt with
  | .ok text =>
    { response := text
      citations := extract_citations text documents
      confidence := "high"
      emergency := true
      timestamp := now
      query_type := "emergency"
      model_used := model_used
      images := [] }
  | .error e =>
    { response := emergency_fallback_text
      citations := []
      confidence := "protocol"
      emergency := true
      error := e }

/-- `AgenticAISystem.process_query`: gate first (return the canned
out-of-scope response without touching either oracle), then plan, then
the emergency branch or the multi-agent branch; a generation failure
falls back to the static technical-difficulty response. -/
def process_query (backend : String → String → Except String (List RawHit))
    (generate : String → String → Except String String)
    (model_used now query : String) : Response :=
  let gate := is_als_relevant query
  if !gate.1 then get_out_of_scope_response now
  else
    let plan0 := analyze_query query
    let plan := { plan0 with is_als_relevant := gate.1,
                             relevance_score := gate.2.1,
                             relevance_keywords := gate.2.2 }
    if plan.emergency_mode then handle_emergency backend generate model_used now query
    else
      let whatsapp_docs := whatsapp_retrieve backend query plan 5
      let alscas_docs := alscas_retrieve backend query 4
      let medical_docs := medical_retrieve backend query 3
      let all_docs := whatsapp_docs ++ alscas_docs ++ medical_docs
      let context :=
        prepare_multi_agent_context
          (format_docs "🥇 WhatsApp" 800 whatsapp_docs)
          (format_docs "🥈 ALSCAS" 700 alscas_docs)
          (format_docs "🥉 Medical" 600 medical_docs)
      match generate "You are an AI assistant SPECIALIZED in ALS/MND caregiving for Indian families."
          (build_multi_agent_user_prompt query context) with
      | .error e => generate_fallback_response e now
      | .ok text =>
        let coverage :=
          (if whatsapp_docs.length > 0 then 1 else 0) +
            (if alscas_docs.length > 0 then 1 else 0) +
            (if medical_docs.length > 0 then 1 else 0)
        { response := text
          citations := []
          confidence := if 2 ≤ coverage then "high" else if coverage = 1 then "medium" else "low"
          timestamp := now
          query_type := plan.query_type
          sources_used := all_docs.length
          emergency := false
          model_used := model_used
          images := []
          relevance_score := gate.2.1 }

/-! ## Theorems -/

/-- C1: for every distance `d ≥ 0`, collection priority and trust score,
the `hybrid_search` relevance score with both boosts inactive equals
`(1/(1+d)) · (p/10) · (t/10)` exactly; and a document carrying the locale
flag under a locale-priority plan scores exactly `1.5×` an otherwise
identical document without the flag. -/
theorem relevance_formula_exact_and_locale_ratio (d : ℚ) (p t : ℤ) (i ip e em : Bool)
    (hd : 0 ≤ d) (hi : (i && ip) = false) (he : (e && em) = false) :
    relevanceScore d p t i ip e em = (1 / (1 + d)) * ((p : ℚ) / 10) * ((t : ℚ) / 10) ∧
    ∀ e2 em2 : Bool,
      relevanceScore d p t true true e2 em2 = 1.5 * relevanceScore d p t false true e2 em2 := by
  constructor
  · unfold relevanceScore
    rw [hi, he]
    norm_num
  · intro e2 em2
    unfold relevanceScore
    cases e2 <;> cases em2 <;> simp <;> ring

/-- Witness for C1 at `d = 1, p = 10, t = 8`. -/
theorem relevance_formula_exact_and_locale_ratio_witness :
    relevanceScore 1 10 8 false true false false
        = (1 / (1 + 1)) * ((10 : ℚ) / 10) * ((8 : ℚ) / 10) ∧
    relevanceScore 1 10 8 true true false false
        = 1.5 * relevanceScore 1 10 8 false true false false :=
  ⟨(relevance_formula_exact_and_locale_ratio 1 10 8 false true false false
      (by norm_num) rfl rfl).1,
   (relevance_formula_exact_and_locale_ratio 1 10 8 false true false false
      (by norm_num) rfl rfl).2 false false⟩

/-- C2: for fixed collection priority (positive), trust score (positive)
and boost flags, the `hybrid_search` relevance score is strictly
decreasing in the nearest-neighbour distance. -/
theorem relevance_score_strictly_decreasing (d1 d2 : ℚ) (p t : ℤ) (i ip e em : Bool)
    (h0 : 0 ≤ d1) (h12 : d1 < d2) (hp : 0 < p) (ht : 0 < t) :
    relevanceScore d2 p t i ip e em < relevanceScore d1 p t i ip e em := by
  unfold relevanceScore
  have h1 : (0 : ℚ) < 1 + d1 := by linarith
  have hinv : 1 / (1 + d2) < 1 / (1 + d1) :=
    one_div_lt_one_div_of_lt h1 (by linarith)
  have hpq : (0 : ℚ) < (p : ℚ) := by exact_mod_cast hp
  have htq : (0 : ℚ) < (t : ℚ) := by exact_mod_cast ht
  have hP : (0 : ℚ) < (p : ℚ) / 10 := by positivity
  have hT : (0 : ℚ) < (t : ℚ) / 10 := by positivity
  have hB1 : (0 : ℚ) < (if i && ip then (1.5 : ℚ) else 1) := by split <;> norm_num
  have hB2 : (0 : ℚ) < (if e && em then (2.0 : ℚ) else 1) := by split <;> norm_num
  exact mul_lt_mul_of_pos_right
    (mul_lt_mul_of_pos_right
      (mul_lt_mul_of_pos_right (mul_lt_mul_of_pos_right hinv hP) hT) hB1) hB2

/-- Witness for C2 at `d1 = 0 < d2 = 1`, `p = 10`, `t = 5`. -/
theorem relevance_score_strictly_decreasing_witness :
    relevanceScore 1 10 5 false true false false
      < relevanceScore 0 10 5 false true false false :=
  relevance_score_strictly_decreasing 0 1 10 5 false true false false
    (by norm_num) (by norm_num) (by norm_num) (by norm_num)

/-- C3 (code bug): for the query `"how to manage"` — which matches a
question pattern but no category keyword and no misspelling — the
pattern's `0.5` is stored as a dict value that is never summed, so
`is_als_relevant` returns score `0` and rejects the query, where the
spec (and the code's own `partial credit` comment) promise a flat `0.5`
contribution and an in-domain classification. -/
theorem question_pattern_only_query_scores_zero :
    is_als_relevant "how to manage" = (false, 0, []) ∧
    has_question_pattern "how to manage" = true := by
  refine ⟨?_, by decide⟩
  have hs : relevance_gate_score "how to manage" = 0 := by
    unfold relevance_gate_score
    rw [show base_count "how to manage" = 0 from by decide,
        show misspell_count "how to manage" = 0 from by decide,
        show category_match_count "how to manage" = 0 from by decide,
        show has_question_pattern "how to manage" = true from by decide]
    norm_num
  unfold is_als_relevant
  rw [hs, show matched_keywords "how to manage" = [] from by decide]
  norm_num [RELEVANCE_THRESHOLD]

/-- C4: any query containing an emergency keyword is planned as
`query_type = "emergency"` with `search_strategy = "focused"`,
regardless of every other flag or category. -/
theorem emergency_keyword_forces_emergency_focused (q : String)
    (h : emergencyFlag q = true) :
    (analyze_query q).query_type = "emergency" ∧
    (analyze_query q).search_strategy = "focused" := by
  simp [analyze_query, h]

/-- Witness for C4 at the query `"urgent help"`. -/
theorem emergency_keyword_forces_emergency_focused_witness :
    emergencyFlag "urgent help" = true ∧
    (analyze_query "urgent help").query_type = "emergency" ∧
    (analyze_query "urgent help").search_strategy = "focused" :=
  ⟨by decide,
   (emergency_keyword_forces_emergency_focused "urgent help" (by decide)).1,
   (emergency_keyword_forces_emergency_focused "urgent help" (by decide)).2⟩

/-- C5 counterexample: the comparison keywords are matched as
substrings, so `"monitor"` — whose only occurrence of `"or"` is inside a
longer word — IS comparison-flagged (and typed `"comparison"`),
contradicting the claim's bare-word reading. -/
theorem comparison_or_substring_flagged :
    comparisonFlag "monitor" = true ∧
    (analyze_query "monitor").query_type = "comparison" := by decide

/-- C5 (amended): the comparison flag is set exactly when the lowercased
query contains one of the comparison keywords as a substring (so bare
`"or"` also fires inside longer words), and whenever the comparison flag
is set and the emergency flag is not, the planned query type is
`"comparison"`. -/
theorem comparison_without_emergency_yields_comparison_type (q : String)
    (hc : comparisonFlag q = true) (he : emergencyFlag q = false) :
    (analyze_query q).query_type = "comparison" := by
  simp [analyze_query, hc, he]

/-- Witness for amended C5 at the query `"bipap vs cpap"`. -/
theorem comparison_without_emergency_yields_comparison_type_witness :
    comparisonFlag "bipap vs cpap" = true ∧
    (analyze_query "bipap vs cpap").query_type = "comparison" :=
  ⟨by decide,
   comparison_without_emergency_yields_comparison_type "bipap vs cpap"
     (by decide) (by decide)⟩

/-- C10: the misspelling `"oxigen"` is credited twice — `0.8` for the
recognized misspelling marker and a full `1.0` for the substituted
canonical keyword `"oxygen"` — giving score exactly `1.8` (not `0.8`)
and an in-domain classification. -/
theorem misspelling_double_credit_oxigen :
    is_als_relevant "oxigen" = (true, 1.8, ["oxigen→oxygen", "oxygen"]) := by
  have hs : relevance_gate_score "oxigen" = 1.8 := by
    unfold relevance_gate_score
    rw [show base_count "oxigen" = 1 from by decide,
        show misspell_count "oxigen" = 1 from by decide,
        show category_match_count "oxigen" = 1 from by decide,
        show has_question_pattern "oxigen" = false from by decide]
    norm_num
  unfold is_als_relevant
  rw [hs, show matched_keywords "oxigen" = ["oxigen→oxygen", "oxygen"] from by decide]
  norm_num [RELEVANCE_THRESHOLD]

/-- C8: when the relevance gate scores a query out-of-domain,
`process_query` returns exactly the canned out-of-scope response (empty
citations, zero sources used, `out_of_scope` marker set) and its result
does not depend on the retrieval backend or the generation oracle at
all — neither is consulted; being a total function, this rejection path
also cannot throw. -/
theorem gate_rejection_returns_canned_response (q : String)
    (h : (is_als_relevant q).1 = false) :
    ∀ (backend backend2 : String → String → Except String (List RawHit))
      (gen gen2 : String → String → Except String String) (model now : String),
      process_query backend gen model now q = get_out_of_scope_response now ∧
      process_query backend gen model now q = process_query backend2 gen2 model now q ∧
      (process_query backend gen model now q).citations = [] ∧
      (process_query backend gen model now q).sources_used = 0 ∧
      (process_query backend gen model now q).out_of_scope = true := by
  intro backend backend2 gen gen2 model now
  have hmain : ∀ (b : String → String → Except String (List RawHit))
      (g : String → String → Except String String),
      process_query b g model now q = get_out_of_scope_response now := by
    intro b g
    simp [process_query, h]
  refine ⟨hmain _ _, (hmain _ _).trans (hmain _ _).symm, ?_, ?_, ?_⟩ <;>
    rw [hmain backend gen] <;> rfl

/-- Witness for C8 at the query `"what is the weather today"` (gate
score `0`) with trivial oracles. -/
theorem gate_rejection_returns_canned_response_witness :
    (is_als_relevant "what is the weather today").1 = false ∧
    process_query (fun _ _ => Except.ok []) (fun _ _ => Except.ok "") "m" "t"
        "what is the weather today" = get_out_of_scope_response "t" := by
  have hs : relevance_gate_score "what is the weather today" = 0 := by
    unfold relevance_gate_score
    rw [show base_count "what is the weather today" = 0 from by decide,
        show misspell_count "what is the weather today" = 0 from by decide,
        show category_match_count "what is the weather today" = 0 from by decide,
        show has_question_pattern "what is the weather today" = false from by decide]
    norm_num
  have hgate : (is_als_relevant "what is the weather today").1 = false := by
    unfold is_als_relevant
    rw [hs]
    norm_num [RELEVANCE_THRESHOLD]
  exact ⟨hgate,
    (gate_rejection_returns_canned_response "what is the weather today" hgate
      (fun _ _ => Except.ok []) (fun _ _ => Except.ok [])
      (fun _ _ => Except.ok "") (fun _ _ => Except.ok "") "m" "t").1⟩

/-- C9: a backend failure for any single collection `c` is equivalent to
`c` returning zero hits — every other collection of the visitation order
is still queried, scored, merged and returned unchanged, and the
retrieval as a whole never aborts. -/
theorem failing_collection_contributes_nothing
    (backend : String → String → Except String (List RawHit)) (c err : String)
    (query : String) (category : Option String) (ip em : Bool) (n : Nat) :
    hybrid_search (fun q2 name => if name = c then Except.error err else backend q2 name)
        query category ip em n
      = hybrid_search (fun q2 name => if name = c then Except.ok [] else backend q2 name)
        query category ip em n := by
  have hpt : ∀ name,
      collectResults (fun q2 n2 => if n2 = c then Except.error err else backend q2 n2)
          query ip em n name
        = collectResults (fun q2 n2 => if n2 = c then Except.ok [] else backend q2 n2)
          query ip em n name := by
    intro name
    unfold collectResults
    by_cases hname : name = c
    · subst hname
      cases collection_config.lookup name <;> simp
    · simp [hname]
  unfold hybrid_search
  rw [show
    (fun (acc : List SearchResult) name =>
      acc ++ collectResults (fun q2 n2 => if n2 = c then Except.error err else backend q2 n2)
        query ip em n name)
    = (fun (acc : List SearchResult) name =>
      acc ++ collectResults (fun q2 n2 => if n2 = c then Except.ok [] else backend q2 n2)
        query ip em n name)
    from funext fun acc => funext fun name => by rw [hpt]]

/-- Characterization of the dedup loop with an arbitrary seen-set: the
output entries with key `k` are empty if `k` was already seen, else
exactly the first input element with key `k`. -/
theorem dedupGo_filter_eq (k : List Char) :
    ∀ (ds : List SearchResult) (seen : List (List Char)),
      (dedupGo seen ds).filter (fun d => dedupKey d == k)
        = if k ∈ seen then [] else ((ds.find? (fun d => dedupKey d == k)).toList) := by
  intro ds
  induction ds with
  | nil => intro seen; simp [dedupGo]
  | cons d ds ih =>
    intro seen
    simp only [dedupGo]
    by_cases hmem : dedupKey d ∈ seen
    · rw [if_pos hmem, ih]
      by_cases hk : k ∈ seen
      · simp [hk]
      · have hne : (dedupKey d == k) = false := by
          apply beq_eq_false_iff_ne.mpr
          intro heq
          exact hk (heq ▸ hmem)
        simp [hk, List.find?_cons, hne]
    · rw [if_neg hmem]
      rw [List.filter_cons]
      by_cases hdk : (dedupKey d == k) = true
      · have hdk2 : dedupKey d = k := by exact beq_iff_eq.mp hdk
        have hknot : k ∉ seen := hdk2 ▸ hmem
        rw [ih]
        simp [hdk, hknot, List.find?_cons, hdk2]
      · have hdk2 : dedupKey d ≠ k := by
          intro heq; exact hdk (beq_iff_eq.mpr heq)
        rw [ih]
        by_cases hk : k ∈ seen
        · simp [hdk, hk, List.find?_cons, hdk2]
        · have hkc : k ∉ (dedupKey d :: seen) := by
            intro hin
            rcases List.mem_cons.mp hin with heq | hin2
            · exact hdk2 heq.symm
            · exact hk hin2
          simp [hdk, hk, hkc, List.find?_cons]

/-- C7: in flat-mode multi-stage retrieval, after per-stage result lists
are concatenated, the deduplicated output contains, for every
first-100-character prefix `k`, exactly the first concatenation-order
document whose text starts with `k` (so any two documents sharing that
prefix collapse to one entry, first occurrence winning). -/
theorem dedup_first_100_chars_first_occurrence_wins
    (stage1 stage2 : List SearchResult) (k : List Char) :
    (remove_duplicate_docs (stage1 ++ stage2)).filter (fun d => dedupKey d == k)
      = ((stage1 ++ stage2).find? (fun d => dedupKey d == k)).toList := by
  unfold remove_duplicate_docs
  rw [dedupGo_filter_eq]
  simp

/-- Pass 1 only ever appends: everything already admitted stays. -/
theorem pass1Go_mem_of_mem (maxR : Nat) :
    ∀ (rs div : List SearchResult) (ss sc : List String) (x : SearchResult),
      x ∈ div → x ∈ (pass1Go maxR rs div ss sc).1 := by
  intro rs
  induction rs with
  | nil => intro div ss sc x hx; simpa [pass1Go] using hx
  | cons r rs ih =>
    intro div ss sc x hx
    simp only [pass1Go]
    by_cases hbrk : maxR ≤ div.length
    · rw [if_pos hbrk]; exact hx
    · rw [if_neg hbrk]
      by_cases hcond : r.source ∉ ss ∨ r.collection ∉ sc
      · rw [if_pos hcond]
        exact ih _ _ _ x (List.mem_append_left _ hx)
      · rw [if_neg hcond]
        exact ih _ _ _ x hx

/-- Pass 1 never grows the admitted list beyond `maxR`. -/
theorem pass1Go_length_le (maxR : Nat) :
    ∀ (rs div : List SearchResult) (ss sc : List String),
      div.length ≤ maxR → (pass1Go maxR rs div ss sc).1.length ≤ maxR := by
  intro rs
  induction rs with
  | nil => intro div ss sc h; simpa [pass1Go] using h
  | cons r rs ih =>
    intro div ss sc h
    simp only [pass1Go]
    by_cases hbrk : maxR ≤ div.length
    · rw [if_pos hbrk]; exact h
    · rw [if_neg hbrk]
      by_cases hcond : r.source ∉ ss ∨ r.collection ∉ sc
      · rw [if_pos hcond]
        apply ih
        simp only [List.length_append, List.length_singleton]
        omega
      · rw [if_neg hcond]; exact ih _ _ _ h

/-- Pass 2 only ever appends: everything already admitted stays. -/
theorem pass2Go_mem_of_mem (maxR : Nat) :
    ∀ (rs div : List SearchResult) (x : SearchResult),
      x ∈ div → x ∈ pass2Go maxR rs div := by
  intro rs
  induction rs with
  | nil => intro div x hx; simpa [pass2Go] using hx
  | cons r rs ih =>
    intro div x hx
    simp only [pass2Go]
    by_cases hbrk : maxR ≤ div.length
    · rw [if_pos hbrk]; exact hx
    · rw [if_neg hbrk]
      by_cases hmem : r ∈ div
      · rw [if_pos hmem]; exact ih _ x hx
      · rw [if_neg hmem]
        exact ih _ x (List.mem_append_left _ hx)

/-- Pass 2 never grows the admitted list beyond `maxR` (given it starts
within the bound). -/
theorem pass2Go_length_le (maxR : Nat) :
    ∀ (rs div : List SearchResult),
      div.length ≤ maxR → (pass2Go maxR rs div).length ≤ maxR := by
  intro rs
  induction rs with
  | nil => intro div h; simpa [pass2Go] using h
  | cons r rs ih =>
    intro div h
    simp only [pass2Go]
    by_cases hbrk : maxR ≤ div.length
    · rw [if_pos hbrk]; exact h
    · rw [if_neg hbrk]
      by_cases hmem : r ∈ div
      · rw [if_pos hmem]; exact ih _ h
      · rw [if_neg hmem]
        apply ih
        simp only [List.length_append, List.length_singleton]
        omega

/-- Core invariant argument: a candidate whose source occurs nowhere
else is always admitted by pass 1 before the cap can be reached, as long
as the cap is at least (distinct sources) + (distinct collections).
`Sd`/`Cd` are ambient duplicate-free universes of sources/collections. -/
theorem pass1Go_admits_unique_source
    (maxR : Nat) (u : SearchResult) (Sd Cd : List String)
    (hmax : Sd.length + Cd.length ≤ maxR) (huS : u.source ∈ Sd) :
    ∀ (rs div : List SearchResult) (ss sc : List String),
      u ∈ rs →
      (∀ v ∈ rs, v.source = u.source → v = u) →
      div.length ≤ ss.length + sc.length →
      ss.Nodup → sc.Nodup →
      (∀ s ∈ ss, s ∈ Sd) → u.source ∉ ss →
      (∀ s ∈ sc, s ∈ Cd) →
      (∀ v ∈ rs, v.source ∈ Sd) → (∀ v ∈ rs, v.collection ∈ Cd) →
      u ∈ (pass1Go maxR rs div ss sc).1 := by
  intro rs
  induction rs with
  | nil => intro div ss sc hu; exact absurd hu (List.not_mem_nil u)
  | cons r rs ih =>
    intro div ss sc hu huniq hlen hssnd hscnd hssS husrc hscC hrsS hrsC
    have hss_sub : ss ⊆ Sd.erase u.source := by
      intro s hs
      have h1 : s ∈ Sd := hssS s hs
      have h2 : s ≠ u.source := fun heq => husrc (heq ▸ hs)
      exact (List.mem_erase_of_ne h2).mpr h1
    have hss_len : ss.length ≤ Sd.length - 1 := by
      have h := (hssnd.subperm hss_sub).length_le
      rwa [List.length_erase_of_mem huS] at h
    have hsc_len : sc.length ≤ Cd.length :=
      (hscnd.subperm (fun s hs => hscC s hs)).length_le
    have hSd_pos : 0 < Sd.length := List.length_pos_of_mem huS
    have hdivlt : div.length < maxR := by omega
    simp only [pass1Go]
    rw [if_neg (by omega : ¬ maxR ≤ div.length)]
    by_cases hru : r = u
    · subst hru
      rw [if_pos (Or.inl husrc)]
      exact pass1Go_mem_of_mem maxR rs _ _ _ r
        (List.mem_append_right _ (List.mem_singleton.mpr rfl))
    · have hrsrc : r.source ≠ u.source :=
        fun heq => hru (huniq r (List.mem_cons_self r rs) heq)
      have hu2 : u ∈ rs := by
        rcases List.mem_cons.mp hu with h | h
        · exact absurd h.symm hru
        · exact h
      have huniq2 : ∀ v ∈ rs, v.source = u.source → v = u :=
        fun v hv heq => huniq v (List.mem_cons_of_mem r hv) heq
      have hrsS2 : ∀ v ∈ rs, v.source ∈ Sd :=
        fun v hv => hrsS v (List.mem_cons_of_mem r hv)
      have hrsC2 : ∀ v ∈ rs, v.collection ∈ Cd :=
        fun v hv => hrsC v (List.mem_cons_of_mem r hv)
      by_cases hcond : r.source ∉ ss ∨ r.collection ∉ sc
      · rw [if_pos hcond]
        have hlen2 : (div ++ [r]).length ≤
            (ss.insert r.source).length + (sc.insert r.collection).length := by
          have hins_s : ss.length ≤ (ss.insert r.source).length := by
            by_cases h : r.source ∈ ss
            · rw [List.insert_of_mem h]
            · rw [List.length_insert_of_not_mem h]; omega
          have hins_c : sc.length ≤ (sc.insert r.collection).length := by
            by_cases h : r.collection ∈ sc
            · rw [List.insert_of_mem h]
            · rw [List.length_insert_of_not_mem h]; omega
          rcases hcond with hns | hnc
          · rw [List.length_insert_of_not_mem hns]
            simp only [List.length_append, List.length_singleton]
            omega
          · rw [List.length_insert_of_not_mem hnc]
            simp only [List.length_append, List.length_singleton]
            omega
        have hssS2 : ∀ s ∈ ss.insert r.source, s ∈ Sd := by
          intro s hs
          rcases List.mem_insert_iff.mp hs with heq | h
          · exact heq ▸ hrsS r (List.mem_cons_self r rs)
          · exact hssS s h
        have husrc2 : u.source ∉ ss.insert r.source := by
          intro hin
          rcases List.mem_insert_iff.mp hin with heq | h
          · exact hrsrc heq.symm
          · exact husrc h
        have hscC2 : ∀ s ∈ sc.insert r.collection, s ∈ Cd := by
          intro s hs
          rcases List.mem_insert_iff.mp hs with heq | h
          · exact heq ▸ hrsC r (List.mem_cons_self r rs)
          · exact hscC s h
        exact ih _ _ _ hu2 huniq2 hlen2 (hssnd.insert) (hscnd.insert)
          hssS2 husrc2 hscC2 hrsS2 hrsC2
      · rw [if_neg hcond]
        exact ih _ _ _ hu2 huniq2 hlen hssnd hscnd hssS husrc hscC hrsS2 hrsC2

/-- C6 counterexample: a score-sorted candidate list with two distinct
sources and `max_results = 2` (so `max_results ≥ distinct_source_count`)
in which the third candidate's source `"s2"` appears exactly once, yet
the diversifier drops it: pass 1's OR-admission lets the `"s1"`
candidates fill both slots (the second is admitted for its new
collection). -/
theorem diversify_unique_source_dropped_counterexample :
    ([⟨"a", "s1", "t", 8, "c1", 0, 3, false, false, "[]", "[]", "general"⟩,
      ⟨"b", "s1", "t", 8, "c2", 0, 2, false, false, "[]", "[]", "general"⟩,
      ⟨"c", "s2", "t", 8, "c1", 0, 1, false, false, "[]", "[]", "general"⟩] :
        List SearchResult).Pairwise (fun a b => a.relevance_score ≥ b.relevance_score) ∧
    (([⟨"a", "s1", "t", 8, "c1", 0, 3, false, false, "[]", "[]", "general"⟩,
       ⟨"b", "s1", "t", 8, "c2", 0, 2, false, false, "[]", "[]", "general"⟩,
       ⟨"c", "s2", "t", 8, "c1", 0, 1, false, false, "[]", "[]", "general"⟩] :
        List SearchResult).map (fun r => r.source)).dedup.length = 2 ∧
    (([⟨"a", "s1", "t", 8, "c1", 0, 3, false, false, "[]", "[]", "general"⟩,
       ⟨"b", "s1", "t", 8, "c2", 0, 2, false, false, "[]", "[]", "general"⟩,
       ⟨"c", "s2", "t", 8, "c1", 0, 1, false, false, "[]", "[]", "general"⟩] :
        List SearchResult).filter (fun r => r.source == "s2")).length = 1 ∧
    (⟨"c", "s2", "t", 8, "c1", 0, 1, false, false, "[]", "[]", "general"⟩ : SearchResult) ∉
      diversify_results
        [⟨"a", "s1", "t", 8, "c1", 0, 3, false, false, "[]", "[]", "general"⟩,
         ⟨"b", "s1", "t", 8, "c2", 0, 2, false, false, "[]", "[]", "general"⟩,
         ⟨"c", "s2", "t", 8, "c1", 0, 1, false, false, "[]", "[]", "general"⟩] 2 := by
  decide

/-- C6 (amended): for every score-sorted candidate list, a candidate
whose source appears exactly once among the candidates is never dropped
provided `max_results ≥ distinct_source_count + distinct_collection_count`
(the per-candidate admission tracks both seen-sets with an OR, so both
counts bound how many slots pass 1 can consume before reaching it). -/
theorem diversify_keeps_unique_source
    (results : List SearchResult) (maxR : Nat) (u : SearchResult)
    (hsorted : results.Pairwise (fun a b => a.relevance_score ≥ b.relevance_score))
    (hu : u ∈ results)
    (huniq : (results.filter (fun r => r.source == u.source)).length = 1)
    (hmax : (results.map (fun r => r.source)).dedup.length
        + (results.map (fun r => r.collection)).dedup.length ≤ maxR) :
    u ∈ diversify_results results maxR := by
  have hufilt : u ∈ results.filter (fun r => r.source == u.source) :=
    List.mem_filter.mpr ⟨hu, by simp⟩
  have hfilt_eq : results.filter (fun r => r.source == u.source) = [u] := by
    rcases List.length_eq_one.mp huniq with ⟨a, ha⟩
    rw [ha] at hufilt
    rw [ha, List.mem_singleton.mp hufilt]
  have huniq2 : ∀ v ∈ results, v.source = u.source → v = u := by
    intro v hv heq
    have hvfilt : v ∈ results.filter (fun r => r.source == u.source) :=
      List.mem_filter.mpr ⟨hv, by simp [heq]⟩
    rw [hfilt_eq] at hvfilt
    exact List.mem_singleton.mp hvfilt
  have hmem1 : u ∈ (pass1Go maxR results [] [] []).1 :=
    pass1Go_admits_unique_source maxR u
      ((results.map (fun r => r.source)).dedup)
      ((results.map (fun r => r.collection)).dedup)
      hmax
      (List.mem_dedup.mpr (List.mem_map_of_mem _ hu))
      results [] [] [] hu huniq2 (by simp) List.nodup_nil List.nodup_nil
      (by simp) (by simp) (by simp)
      (fun v hv => List.mem_dedup.mpr (List.mem_map_of_mem _ hv))
      (fun v hv => List.mem_dedup.mpr (List.mem_map_of_mem _ hv))
  have hlen1 : (pass1Go maxR results [] [] []).1.length ≤ maxR :=
    pass1Go_length_le maxR results [] [] [] (by simp)
  have hmem2 : u ∈ pass2Go maxR results (pass1Go maxR results [] [] []).1 :=
    pass2Go_mem_of_mem maxR results _ u hmem1
  have hlen2 : (pass2Go maxR results (pass1Go maxR results [] [] []).1).length ≤ maxR :=
    pass2Go_length_le maxR results _ hlen1
  unfold diversify_results
  rw [List.take_of_length_le hlen2]
  exact hmem2

/-- Witness for amended C6: a single candidate with a unique source is
kept when `max_results = 2 ≥ 1 + 1`. -/
theorem diversify_keeps_unique_source_witness :
    (⟨"a", "s1", "t", 8, "c1", 0, 3, false, false, "[]", "[]", "general"⟩ : SearchResult) ∈
      diversify_results
        [⟨"a", "s1", "t", 8, "c1", 0, 3, false, false, "[]", "[]", "general"⟩] 2 :=
  diversify_keeps_unique_source
    [⟨"a", "s1", "t", 8, "c1", 0, 3, false, false, "[]", "[]", "general"⟩] 2
    ⟨"a", "s1", "t", 8, "c1", 0, 3, false, false, "[]", "[]", "general"⟩
    (by decide) (by decide) (by decide) (by decide)

end AlsCompass
